import Mathlib

/-!
Shallow embedding of the `verify` Python assertion library
(modules `verify/base.py`, `verify/runners.py`, `verify/logic.py`,
`verify/containers.py`, `verify/numbers.py`, `verify/equality.py`).

Conventions of the embedding:
* Python values are modelled by the inductive `PyVal` (the fragment of
  values the claims exercise: `None`, booleans, ints, strings, lists).
* A raised `AssertionError` (and, inside the low-level helpers, a raised
  `TypeError`/`ValueError`) is modelled by the `.error` constructor of
  `Except String`, carrying the exception message.
* A check call (`Assertion.__call__`) therefore has type
  `PyVal → Except String PyVal`: `.ok` is a normal return, `.error` a raise.
* `str.format` (used by `Assertion.format_msg`) is modelled by `pyFormat`,
  a direct interpreter of the format-string fragment the library uses:
  literal text, auto/positional/named replacement fields, and doubled
  braces for literal braces.  Conversion (`!r`) and format-spec (`:...`)
  suffixes are not modelled; no template or custom message in this
  development uses them.
-/

/-- Model of the Python values the claims exercise. -/
inductive PyVal where
  | none
  | bool (b : Bool)
  | int (n : Int)
  | str (s : String)
  | list (xs : List PyVal)

mutual

/-- Python `==` on the modelled fragment (used by list membership). -/
def pyBeq : PyVal → PyVal → Bool
  | PyVal.none, PyVal.none => true
  | PyVal.bool a, PyVal.bool b => a == b
  | PyVal.int a, PyVal.int b => a == b
  | PyVal.str a, PyVal.str b => a == b
  | PyVal.list a, PyVal.list b => pyBeqList a b
  | _, _ => false

/-- Elementwise `pyBeq` on lists. -/
def pyBeqList : List PyVal → List PyVal → Bool
  | [], [] => true
  | x :: xs, y :: ys => pyBeq x y && pyBeqList xs ys
  | _, _ => false

end

/-- Python truthiness (`bool(v)`) on the modelled fragment. -/
def truthy : PyVal → Bool
  | PyVal.none => false
  | PyVal.bool b => b
  | PyVal.int n => n != 0
  | PyVal.str s => s != ""
  | PyVal.list xs => !xs.isEmpty

/-- ASCII apostrophe, used by `pyRepr` for string quoting. -/
def squote : String := String.singleton (Char.ofNat 39)

mutual

/-- Python `repr` on the modelled fragment (string escaping is not modelled;
no claim depends on it). -/
def pyRepr : PyVal → String
  | PyVal.none => "None"
  | PyVal.bool true => "True"
  | PyVal.bool false => "False"
  | PyVal.int n => toString n
  | PyVal.str s => squote ++ s ++ squote
  | PyVal.list xs => "[" ++ pyReprList xs ++ "]"

/-- Comma-separated `repr` of list elements. -/
def pyReprList : List PyVal → String
  | [] => ""
  | [x] => pyRepr x
  | x :: y :: rest => pyRepr x ++ ", " ++ pyReprList (y :: rest)

end

/-- Python `str` (also what `str.format` interpolates for a bare field). -/
def pyStr : PyVal → String
  | PyVal.str s => s
  | v => pyRepr v

/-- Python substring containment (`sub in s` for strings). -/
def strContainsSub (s sub : String) : Bool :=
  (s.toList.tails).any (fun t => sub.toList.isPrefixOf t)

/-! Model of the fragment of `str.format` that `Assertion.format_msg` uses. -/

/-- Opening brace character. -/
def openB : Char := Char.ofNat 123

/-- Closing brace character. -/
def closeB : Char := Char.ofNat 125

/-- Split a maximal run of literal (non-brace) characters off the front. -/
def takeLit : List Char → String × List Char
  | [] => ("", [])
  | c :: rest =>
    if c = openB ∨ c = closeB then ("", c :: rest)
    else
      let p := takeLit rest
      (c.toString ++ p.1, p.2)

/-- Read a replacement-field name up to the closing brace. -/
def splitClose : List Char → Option (List Char × List Char)
  | [] => Option.none
  | c :: rest =>
    if c = closeB then some ([], rest)
    else (splitClose rest).map (fun p => (c :: p.1, p.2))

/-- Digits-only field name to an index. -/
def strToNat (l : List Char) : Nat :=
  l.foldl (fun n c => n * 10 + (c.toNat - 48)) 0

/-- Positional-argument lookup. -/
def nthStr : List String → Nat → Option String
  | [], _ => Option.none
  | s :: _, 0 => some s
  | _ :: rest, n + 1 => nthStr rest n

/-- Named-argument lookup. -/
def lookupNamed : List (String × String) → List Char → Option String
  | [], _ => Option.none
  | (k, s) :: rest, f => if k.toList = f then some s else lookupNamed rest f

/-- Resolve one replacement field: empty name is auto-numbered, digits are a
positional index, anything else a keyword.  Returns the replacement together
with the next auto index. -/
def lookupField (field : List Char) (auto : Nat) (pos : List String)
    (named : List (String × String)) : Except String (String × Nat) :=
  if field = [] then
    match nthStr pos auto with
    | some s => Except.ok (s, auto + 1)
    | Option.none => Except.error "IndexError: Replacement index out of range"
  else if field.all Char.isDigit then
    match nthStr pos (strToNat field) with
    | some s => Except.ok (s, auto)
    | Option.none => Except.error "IndexError: Replacement index out of range"
  else
    match lookupNamed named field with
    | some s => Except.ok (s, auto)
    | Option.none => Except.error "KeyError"

/-- Core interpreter for `str.format`.  The fuel argument only bounds the
recursion; `pyFormat` supplies one unit of fuel per character, which is
always enough because every round consumes at least one character. -/
def fmtGo : Nat → List Char → Nat → List String → List (String × String) →
    Except String String
  | 0, _, _, _, _ => Except.error "format: out of fuel"
  | _ + 1, [], _, _, _ => Except.ok ""
  | fuel + 1, c0 :: cs, auto, pos, named =>
    let p := takeLit (c0 :: cs)
    match p.2 with
    | [] => Except.ok p.1
    | c :: rest =>
      if c = openB then
        match rest with
        | [] => Except.error "ValueError: Single brace encountered"
        | c2 :: rest2 =>
          if c2 = openB then
            (fmtGo fuel rest2 auto pos named).map
              (fun t => p.1 ++ openB.toString ++ t)
          else
            match splitClose (c2 :: rest2) with
            | Option.none =>
              Except.error "ValueError: expected closing brace"
            | some q =>
              match lookupField q.1 auto pos named with
              | Except.error e => Except.error e
              | Except.ok r =>
                match fmtGo fuel q.2 r.2 pos named with
                | Except.error e => Except.error e
                | Except.ok t => Except.ok (p.1 ++ r.1 ++ t)
      else
        match rest with
        | [] => Except.error "ValueError: Single brace encountered"
        | c2 :: rest2 =>
          if c2 = closeB then
            (fmtGo fuel rest2 auto pos named).map
              (fun t => p.1 ++ closeB.toString ++ t)
          else Except.error "ValueError: Single brace encountered"

/-- Model of `template.format(*pos, **named)` on the fragment used by the
library (all arguments pre-rendered to strings). -/
def pyFormat (template : String) (pos : List String)
    (named : List (String × String)) : Except String String :=
  fmtGo (template.toList.length + 1) template.toList 0 pos named

/-! Model of `verify/base.py`. -/

/-- Model of `Assertion.format_msg` (src/verify/base.py lines 47-57): the
caller-supplied `msg` is used as the format string when it is truthy (a
non-empty string), otherwise the reason template is; the chosen string is
then formatted with the positional arguments (`args[0]` is the subject
value) and the named fields (the instance's `__dict__`, here pre-rendered
in `attrs`). -/
def format_msg (msg : Option String) (reason : String) (args : List String)
    (attrs : List (String × String)) : Except String String :=
  let rsn :=
    match msg with
    | Option.none => reason
    | some s => if s = "" then reason else s
  pyFormat rsn args attrs

/-- Model of a configured assertion instance: its `compare` method, its
`reason` template and its rendered instance dictionary. -/
structure Assertion where
  compare : PyVal → Except String PyVal
  reason : String
  attrs : List (String × String)

/-- Model of `Assertion.__call__` (src/verify/base.py lines 69-87):
`assert self.compare(value), self.format_msg(value, msg=msg)` — a raise
inside `compare` propagates; a falsy comparison raises `AssertionError`
with the rendered message; a truthy one returns `True`. -/
def Assertion.call (a : Assertion) (msg : Option String) (v : PyVal) :
    Except String PyVal :=
  match a.compare v with
  | Except.error e => Except.error e
  | Except.ok r =>
    if truthy r then Except.ok (PyVal.bool true)
    else
      match format_msg msg a.reason [pyStr v] a.attrs with
      | Except.ok m => Except.error m
      | Except.error e => Except.error e

/-! Model of `Comparator` (src/verify/base.py lines 90-106). -/

/-- A comparator class is given by its binary operation and reason
template; `op` is applied as `op(value, comparable)`. -/
structure Comparator where
  op : PyVal → PyVal → Except String PyVal
  reason : String

/-- The assertion instance a comparator class produces once its
`comparable` operand is stored (`self.comparable = comparable`);
`Comparator.compare` evaluates `self.op(value, self.comparable)`. -/
def Comparator.toAssertion (c : Comparator) (comparable : PyVal) : Assertion :=
  { compare := fun v => c.op v comparable
    reason := c.reason
    attrs := [("comparable", pyStr comparable)] }

/-- Model of `Comparator.__init__` (src/verify/base.py lines 92-102): with
one positional argument it is stored as the comparable and evaluation is
deferred; with two, the variables are swapped — `value, comparable =
comparable, value` — so the first positional argument becomes the subject
value and the second the comparable, and validation runs immediately. -/
def Comparator.init (c : Comparator) (msg : Option String) (first : PyVal)
    (second : Option PyVal) : Except String Assertion :=
  match second with
  | Option.none => Except.ok (c.toAssertion first)
  | some v2 =>
    let a := c.toAssertion v2
    (a.call msg first).map (fun _ => a)

/-- Modelled from the spec (claim C1), NOT from the source: the spec's
disambiguation rule says the constructor treats the *first* positional
argument as the comparable and the *second* as the subject to evaluate
immediately.  Kept only for comparison against `Comparator.init`. -/
def Comparator.initSpecClaim (c : Comparator) (msg : Option String)
    (first : PyVal) (second : Option PyVal) : Except String Assertion :=
  match second with
  | Option.none => Except.ok (c.toAssertion first)
  | some v2 =>
    let a := c.toAssertion first
    (a.call msg v2).map (fun _ => a)

/-- Model of `operator.gt` on the comparable fragment (Python raises
`TypeError` on unorderable mixed types; mixed bool/int orderings are
outside the fragment the claims exercise). -/
def py_gt (value comparable : PyVal) : Except String PyVal :=
  match value, comparable with
  | PyVal.int a, PyVal.int b => Except.ok (PyVal.bool (b < a))
  | PyVal.str a, PyVal.str b => Except.ok (PyVal.bool (b < a))
  | _, _ => Except.error "TypeError: unorderable types"

/-- Model of the `Greater` comparator class (src/verify/numbers.py). -/
def Greater : Comparator :=
  { op := py_gt, reason := "{0} is not greater than {comparable}" }

/-! Model of `verify/logic.py`. -/

/-- Model of the `Truthy` check (src/verify/logic.py): `op = bool`. -/
def TruthyCheck : Assertion :=
  { compare := fun v => Except.ok (PyVal.bool (truthy v))
    reason := "{0} is not truthy"
    attrs := [] }

/-- Model of a `Not` instance wrapping the callable `w` (src/verify/logic.py
lines 57-93).  `Not.compare` returns `not self.comparable(value)` and turns
a raised `AssertionError` from the wrapped callable into `True`.  `nm` is
`str(w)`, the rendering of the wrapped callable used in the message. -/
def NotCheck (w : PyVal → Except String PyVal) (nm : String) : Assertion :=
  { compare := fun v =>
      match w v with
      | Except.error _ => Except.ok (PyVal.bool true)
      | Except.ok r => Except.ok (PyVal.bool (!truthy r))
    reason :=
      "The negation of {comparable} should not be true when evaluated with {0}"
    attrs := [("comparable", nm)] }

/-- The failure message a `Not` check renders for subject `v`. -/
def notRendered (nm : String) (v : PyVal) : String :=
  "The negation of " ++ nm ++ " should not be true when evaluated with " ++
    pyStr v

/-- Model of a `Predicate` instance wrapping the callable `f`
(src/verify/logic.py lines 96-128): a raised `AssertionError` from `f`
becomes the comparison value `False`; a `None` result becomes `True`;
any other result is returned as is. -/
def PredicateCheck (f : PyVal → Except String PyVal) (nm : String) :
    Assertion :=
  { compare := fun v =>
      let result :=
        match f v with
        | Except.error _ => PyVal.bool false
        | Except.ok r => r
      match result with
      | PyVal.none => Except.ok (PyVal.bool true)
      | r => Except.ok r
    reason := "The evaluation of {0} using {comparable} is false"
    attrs := [("comparable", nm)] }

/-- The failure message a `Predicate` check renders for subject `v`. -/
def predicateRendered (nm : String) (v : PyVal) : String :=
  "The evaluation of " ++ pyStr v ++ " using " ++ nm ++ " is false"

/-! Model of `verify/containers.py`. -/

/-- Python `item in container` on the modelled fragment.  Non-iterable
containers and a non-string item probed against a string raise
`TypeError`. -/
def pyContains (container item : PyVal) : Except String Bool :=
  match container with
  | PyVal.list xs => Except.ok (xs.any (fun x => pyBeq x item))
  | PyVal.str s =>
    match item with
    | PyVal.str sub => Except.ok (strContainsSub s sub)
    | _ => Except.error "TypeError: in requires string as left operand"
  | _ => Except.error "TypeError: argument is not iterable"

/-- Python `iter(v)` on the modelled fragment. -/
def pyIter : PyVal → Except String (List PyVal)
  | PyVal.list xs => Except.ok xs
  | PyVal.str s => Except.ok (s.toList.map (fun ch => PyVal.str ch.toString))
  | _ => Except.error "TypeError: not iterable"

/-- Short-circuiting `all(val in comparable for val in xs)`. -/
def allInM : List PyVal → PyVal → Except String Bool
  | [], _ => Except.ok true
  | x :: xs, comp => do
    let b ← pyContains comp x
    if b then allInM xs comp else pure false

/-- Model of `In.op` (src/verify/containers.py lines 42-48): `value in
comparable`, with `TypeError`/`ValueError` caught and turned into `False`. -/
def In_op (value comparable : PyVal) : Bool :=
  match pyContains comparable value with
  | Except.ok b => b
  | Except.error _ => false

/-- Model of `Contains.op` (src/verify/containers.py lines 84-90):
`comparable in value`, with `TypeError`/`ValueError` caught. -/
def Contains_op (value comparable : PyVal) : Bool :=
  match pyContains value comparable with
  | Except.ok b => b
  | Except.error _ => false

/-- Model of `ContainsOnly.op` (src/verify/containers.py lines 126-132):
`all(val in comparable for val in value)`, with `TypeError`/`ValueError`
caught. -/
def ContainsOnly_op (value comparable : PyVal) : Bool :=
  match (do
      let xs ← pyIter value
      allInM xs comparable : Except String Bool) with
  | Except.ok b => b
  | Except.error _ => false

/-- Model of an `In` instance with its comparable stored. -/
def InCheck (comparable : PyVal) : Assertion :=
  { compare := fun v => Except.ok (PyVal.bool (In_op v comparable))
    reason := "{0} is not in {comparable}"
    attrs := [("comparable", pyStr comparable)] }

/-- Model of a `Contains` instance with its comparable stored. -/
def ContainsCheck (comparable : PyVal) : Assertion :=
  { compare := fun v => Except.ok (PyVal.bool (Contains_op v comparable))
    reason := "{0} does not contain {comparable}"
    attrs := [("comparable", pyStr comparable)] }

/-- Model of a `ContainsOnly` instance with its comparable stored. -/
def ContainsOnlyCheck (comparable : PyVal) : Assertion :=
  { compare := fun v => Except.ok (PyVal.bool (ContainsOnly_op v comparable))
    reason := "{0} does not only contain values in {comparable}"
    attrs := [("comparable", pyStr comparable)] }

/-- The failure message an `In` check renders. -/
def inRendered (v c : PyVal) : String :=
  pyStr v ++ " is not in " ++ pyStr c

/-- The failure message a `Contains` check renders. -/
def containsRendered (v c : PyVal) : String :=
  pyStr v ++ " does not contain " ++ pyStr c

/-- The failure message a `ContainsOnly` check renders. -/
def containsOnlyRendered (v c : PyVal) : String :=
  pyStr v ++ " does not only contain values in " ++ pyStr c

/-! Model of `Between` (src/verify/numbers.py lines 130-190). -/

/-- Python `value >= min` on the modelled numeric fragment. -/
def pyGeInt (v : PyVal) (m : Int) : Except String Bool :=
  match v with
  | PyVal.int n => Except.ok (decide (m ≤ n))
  | _ => Except.error "TypeError: unorderable types"

/-- Python `value <= max` on the modelled numeric fragment. -/
def pyLeInt (v : PyVal) (m : Int) : Except String Bool :=
  match v with
  | PyVal.int n => Except.ok (decide (n ≤ m))
  | _ => Except.error "TypeError: unorderable types"

/-- Model of `Between.op` (src/verify/numbers.py lines 182-186):
`ge_min = value >= min if min is not None else True`,
`le_max = value <= max if max is not None else True`,
`return ge_min and le_max`. -/
def Between_op (v : PyVal) (mn mx : Option Int) : Except String PyVal := do
  let g ← match mn with
    | Option.none => pure true
    | some m => pyGeInt v m
  let l ← match mx with
    | Option.none => pure true
    | some m => pyLeInt v m
  pure (PyVal.bool (g && l))

/-- Python `str` of an optional bound. -/
def renderOptInt : Option Int → String
  | Option.none => "None"
  | some n => toString n

/-- Model of a `Between` instance: `set_options` stores `min`/`max`
(defaulting to `None`), `compare` runs `op(value, self.min, self.max)`. -/
def BetweenCheck (mn mx : Option Int) : Assertion :=
  { compare := fun v => Between_op v mn mx
    reason := "{0} is not between {min} and {max}"
    attrs := [("min", renderOptInt mn), ("max", renderOptInt mx)] }

/-! Model of `verify/runners.py`. -/

/-- Model of the `Predicate` class of the flat src/verify/__init__.py
(lines 218-234) — the class `verify.Predicate` actually resolves to in
`runners.py`, since `import verify` loads the flat module, which defines
its own `Predicate`.  Its `compare` returns `self.comparable(value)`
unchanged: no `AssertionError` catch and no `None`-to-`True` mapping
(unlike `logic.py`'s `Predicate`, modelled by `PredicateCheck`).  The flat
`Assertion.__call__`/`message` pair behaves like the base one with no
`msg` option, so `Assertion.call` with `Option.none` models the call. -/
def FlatPredicateCheck (f : PyVal → Except String PyVal) (nm : String) :
    Assertion :=
  { compare := f
    reason := "The evaluation of {0} using {comparable} is false"
    attrs := [("comparable", nm)] }

/-- A check handed to the batch runner: either an object for which
`is_assertion` is true, or an arbitrary callable (`nm` is its `str`,
used only in rendered messages). -/
inductive RawCheck where
  | assertion (a : Assertion)
  | callable (nm : String) (f : PyVal → Except String PyVal)

/-- One round of `expect.__call__`: a check that is not an assertion is
wrapped in `verify.Predicate`, then applied to the held value
(src/verify/runners.py lines 105-112).  In the staged snapshot
`verify.Predicate` is the flat `__init__.py` Predicate, modelled by
`FlatPredicateCheck`. -/
def applyRaw : RawCheck → PyVal → Except String PyVal
  | RawCheck.assertion a, v => a.call Option.none v
  | RawCheck.callable nm f, v => (FlatPredicateCheck f nm).call Option.none v

/-- Model of `expect.__call__`'s loop: each check is applied to the held
value in order; the loop ignores return values, and a raise propagates. -/
def expectCall (v : PyVal) : List RawCheck → Except String Unit
  | [] => Except.ok ()
  | r :: rest =>
    match applyRaw r v with
    | Except.error e => Except.error e
    | Except.ok _ => expectCall v rest

/-- Lazy `all(assertable(value) for assertable in assertions)` of the flat
`expect` function (src/verify/__init__.py lines 80-122): evaluation stops
at the first falsy result, and a raise propagates. -/
def allLazy (v : PyVal) : List (PyVal → Except String PyVal) →
    Except String Bool
  | [] => Except.ok true
  | f :: rest => do
    let r ← f v
    if truthy r then allLazy v rest else Except.ok false

/-- Model of the flat `expect` function itself (src/verify/__init__.py
lines 80-122): `assert all(...), 'Not all expectations evaluated to
true'`; it performs no Predicate wrapping. -/
def expectFlat (v : PyVal) (fs : List (PyVal → Except String PyVal)) :
    Except String PyVal :=
  match allLazy v fs with
  | Except.error e => Except.error e
  | Except.ok b =>
    if b then Except.ok (PyVal.bool true)
    else Except.error "Not all expectations evaluated to true"

/-- Python `str.capitalize`: first character upper-cased, the rest
lower-cased. -/
def pyCapitalize (s : String) : String :=
  match s.toList with
  | [] => ""
  | c :: rest => String.mk (c.toUpper :: rest.map Char.toLower)

/-- Python `name.split(sep)` for a single-character separator, on
character lists (the result is never empty). -/
def splitUnders : List Char → List (List Char)
  | [] => [[]]
  | c :: rest =>
    match splitUnders rest with
    | [] => [[]]
    | part :: parts =>
      if c = '_' then [] :: part :: parts else (c :: part) :: parts

/-- Model of `_class_format` (src/verify/runners.py lines 145-147):
underscore-split, capitalize each part, concatenate. -/
def class_format (name : String) : String :=
  String.join
    ((splitUnders name.toList).map (fun part => pyCapitalize (String.mk part)))

/-- Model of `_prefixed_name`/`_to_be_prefix` (src/verify/runners.py):
if the name starts with `to_be_`, class-format the remainder. -/
def to_be_prefix_fmt (name : String) : Option String :=
  if "to_be_".toList.isPrefixOf name.toList then
    some (class_format (String.mk (name.toList.drop 6)))
  else Option.none

/-- Model of `_prefixed_name`/`_is_prefix` (src/verify/runners.py):
if the name starts with `is_`, class-format the remainder. -/
def is_prefix_fmt (name : String) : Option String :=
  if "is_".toList.isPrefixOf name.toList then
    some (class_format (String.mk (name.toList.drop 3)))
  else Option.none

/-- Model of `_reserved_names` (src/verify/runners.py lines 163-167). -/
def reserved_names (name : String) : Option String :=
  if name = "does" then some "Predicate"
  else if name = "does_not" then some "Not"
  else Option.none

/-- An attribute of the `verify` module namespace: either an object for
which `base.is_assertion` is true (a `base.Assertion` subclass or
instance, identified by its class name standing in for object identity)
or some other attribute (`is_assertion` false), identified by its
attribute name. -/
inductive ModEntry where
  | assertionClass (className : String)
  | other (attrName : String)

/-- Model of `getattr(verify, name)` over a namespace association list. -/
def envGet : List (String × ModEntry) → String → Option ModEntry
  | [], _ => Option.none
  | (k, e) :: rest, n => if k = n then some e else envGet rest n

/-- The resolution-failure message raised by `_find_assertion_class` and
`expect.__getattr__`. -/
def mkNotValidMsg (name : String) : String :=
  "\"" ++ name ++ "\" is not a valid assertion method"

/-- Model of `_find_assertion_class` (src/verify/runners.py lines 118-142):
exact `getattr` first, then each name formatter in order
(`_class_format`, `_to_be_prefix`, `_is_prefix`, `_reserved_names`),
returning the first attribute found; otherwise `AttributeError`. -/
def find_assertion_class (env : List (String × ModEntry)) (name : String) :
    Except String ModEntry :=
  match envGet env name with
  | some e => Except.ok e
  | Option.none =>
    match envGet env (class_format name) with
    | some e => Except.ok e
    | Option.none =>
      match (to_be_prefix_fmt name).bind (envGet env) with
      | some e => Except.ok e
      | Option.none =>
        match (is_prefix_fmt name).bind (envGet env) with
        | some e => Except.ok e
        | Option.none =>
          match (reserved_names name).bind (envGet env) with
          | some e => Except.ok e
          | Option.none => Except.error (mkNotValidMsg name)

/-- Model of `expect.__getattr__` (src/verify/runners.py lines 88-103):
resolve the attribute, then require the result to satisfy `is_assertion`;
otherwise `AttributeError` with the same message. -/
def expectGetattr (env : List (String × ModEntry)) (name : String) :
    Except String String :=
  match find_assertion_class env name with
  | Except.error e => Except.error e
  | Except.ok (ModEntry.assertionClass cn) => Except.ok cn
  | Except.ok (ModEntry.other _) => Except.error (mkNotValidMsg name)

/-- The namespace of the `verify` module as `runners.py` sees it through
`import verify` (the flat src/verify/__init__.py: its imports, `NotSet`,
the function-style `expect`, and one class per `__all__` entry plus
`Assertion`/`Comparator`).  The flat module defines its *own* `Assertion`
base class and derives every check from it, and it imports nothing from
`base.py`; `base.is_assertion` tests against `base.Assertion`, so it is
False for every attribute of this namespace — each entry is therefore
`ModEntry.other`. -/
def verifyModule : List (String × ModEntry) :=
  [("datetime", ModEntry.other "datetime"),
   ("operator", ModEntry.other "operator"),
   ("partial", ModEntry.other "partial"),
   ("re", ModEntry.other "re"),
   ("pydash", ModEntry.other "pydash"),
   ("NotSet", ModEntry.other "NotSet"),
   ("expect", ModEntry.other "expect"),
   ("Assertion", ModEntry.other "Assertion"),
   ("Comparator", ModEntry.other "Comparator"),
   ("Not", ModEntry.other "Not"),
   ("Predicate", ModEntry.other "Predicate"),
   ("Equal", ModEntry.other "Equal"),
   ("Match", ModEntry.other "Match"),
   ("Greater", ModEntry.other "Greater"),
   ("GreaterEqual", ModEntry.other "GreaterEqual"),
   ("Less", ModEntry.other "Less"),
   ("LessEqual", ModEntry.other "LessEqual"),
   ("Between", ModEntry.other "Between"),
   ("Length", ModEntry.other "Length"),
   ("All", ModEntry.other "All"),
   ("Any", ModEntry.other "Any"),
   ("In", ModEntry.other "In"),
   ("Contains", ModEntry.other "Contains"),
   ("ContainsOnly", ModEntry.other "ContainsOnly"),
   ("Subset", ModEntry.other "Subset"),
   ("Superset", ModEntry.other "Superset"),
   ("Unique", ModEntry.other "Unique"),
   ("InstanceOf", ModEntry.other "InstanceOf"),
   ("Is", ModEntry.other "Is"),
   ("IsTrue", ModEntry.other "IsTrue"),
   ("IsFalse", ModEntry.other "IsFalse"),
   ("IsNone", ModEntry.other "IsNone"),
   ("Truthy", ModEntry.other "Truthy"),
   ("Falsy", ModEntry.other "Falsy"),
   ("Boolean", ModEntry.other "Boolean"),
   ("String", ModEntry.other "String"),
   ("Dict", ModEntry.other "Dict"),
   ("List", ModEntry.other "List"),
   ("Tuple", ModEntry.other "Tuple"),
   ("Date", ModEntry.other "Date"),
   ("DateString", ModEntry.other "DateString"),
   ("Int", ModEntry.other "Int"),
   ("Float", ModEntry.other "Float"),
   ("NaN", ModEntry.other "NaN"),
   ("Number", ModEntry.other "Number"),
   ("Positive", ModEntry.other "Positive"),
   ("Negative", ModEntry.other "Negative"),
   ("Even", ModEntry.other "Even"),
   ("Odd", ModEntry.other "Odd"),
   ("Monotone", ModEntry.other "Monotone"),
   ("Increasing", ModEntry.other "Increasing"),
   ("StrictlyIncreasing", ModEntry.other "StrictlyIncreasing"),
   ("Decreasing", ModEntry.other "Decreasing"),
   ("StrictlyDecreasing", ModEntry.other "StrictlyDecreasing")]


/-! Alias tables (claim C5). -/

/-- Association-list lookup used for the alias tables. -/
def lookupAlias : List (String × String) → String → Option String
  | [], _ => Option.none
  | (k, c) :: rest, n => if k = n then some c else lookupAlias rest n

/-- The module-level alias assignments of src/verify/equality.py, in source
order, each alias name paired with the class it is bound to. -/
def aliasBindingsEquality : List (String × String) :=
  [("to_be_equal", "Equal"), ("is_equal", "Equal"),
   ("to_not_be_equal", "NotEqual"), ("is_not_equal", "NotEqual"),
   ("to_match", "Match"), ("is_match", "Match"), ("matches", "Match"),
   ("to_not_match", "NotMatch"), ("is_not_match", "Match"),
   ("does_not_match", "NotMatch"),
   ("to_be", "Is"), ("is_", "Is"),
   ("to_not_be", "IsNot"), ("is_not", "IsNot"),
   ("to_be_true", "IsTrue"), ("is_true", "IsTrue"),
   ("to_not_be_true", "IsNotTrue"), ("is_not_true", "IsNotTrue"),
   ("to_be_false", "IsFalse"), ("is_false", "IsFalse"),
   ("to_not_be_false", "IsNotFalse"), ("is_not_false", "IsNotFalse"),
   ("to_be_none", "IsNone"), ("is_none", "IsNone"),
   ("to_not_be_none", "IsNotNone"), ("is_not_none", "IsNotNone")]

/-- The aliases documented in the docstrings of src/verify/equality.py,
each paired with the class whose docstring lists it. -/
def docAliasesEquality : List (String × String) :=
  [("to_be_equal", "Equal"), ("is_equal", "Equal"),
   ("to_not_be_equal", "NotEqual"), ("is_not_equal", "NotEqual"),
   ("to_match", "Match"), ("is_match", "Match"), ("matches", "Match"),
   ("to_not_be_match", "NotMatch"), ("is_not_match", "NotMatch"),
   ("not_matches", "NotMatch"),
   ("to_be", "Is"), ("is_", "Is"),
   ("to_not_be", "IsNot"), ("is_not", "IsNot"),
   ("to_be_true", "IsTrue"), ("is_true", "IsTrue"),
   ("to_not_be_true", "IsNotTrue"), ("is_not_true", "IsNotTrue"),
   ("to_be_false", "IsFalse"), ("is_false", "IsFalse"),
   ("to_not_be_false", "IsNotFalse"), ("is_not_false", "IsNotFalse"),
   ("to_be_none", "IsNone"), ("is_none", "IsNone"),
   ("to_be_not_none", "IsNotNone"), ("is_not_none", "IsNotNone")]

/-- The module-level alias assignments of src/verify/numbers.py, in source
order. -/
def aliasBindingsNumbers : List (String × String) :=
  [("GreaterThan", "Greater"),
   ("to_be_greater", "Greater"), ("to_be_greater_than", "Greater"),
   ("is_greater", "Greater"), ("is_greater_than", "Greater"),
   ("GreaterOrEqual", "GreaterEqual"),
   ("to_be_greater_equal", "GreaterEqual"),
   ("to_be_greater_or_equal", "GreaterEqual"),
   ("is_greqter_equal", "GreaterEqual"),
   ("is_greater_or_equal", "GreaterEqual"),
   ("LessThan", "Less"),
   ("to_be_less", "Less"), ("to_be_less_than", "Less"),
   ("is_less", "Less"), ("is_less_than", "Less"),
   ("LessOrEqual", "LessEqual"),
   ("to_be_less_equal", "LessEqual"), ("to_be_less_or_equal", "LessEqual"),
   ("is_less_equal", "LessEqual"), ("is_less_or_equal", "LessEqual"),
   ("to_be_between", "Between"), ("is_between", "Between"),
   ("to_not_be_between", "NotBetween"), ("is_not_between", "NotBetween"),
   ("to_be_positive", "Positive"), ("is_positive", "Positive"),
   ("to_be_negative", "Negative"), ("is_negative", "Negative"),
   ("to_be_even", "Even"), ("is_even", "Even"),
   ("to_be_odd", "Odd"), ("is_odd", "Odd"),
   ("to_be_monotone", "Monotone"), ("is_monotone", "Monotone"),
   ("to_be_increasing", "Increasing"), ("is_increasing", "Increasing"),
   ("to_be_strictly_increasing", "StrictlyIncreasing"),
   ("is_strictly_increasing", "StrictlyIncreasing"),
   ("to_be_decreasing", "Decreasing"), ("is_decreasing", "Decreasing"),
   ("to_be_strictly_decreasing", "StrictlyDecreasing"),
   ("is_strictly_decreasing", "StrictlyDecreasing")]

/-- The aliases documented in the docstrings of src/verify/numbers.py. -/
def docAliasesNumbers : List (String × String) :=
  [("GreaterThan", "Greater"),
   ("to_be_greater", "Greater"), ("to_be_greater_than", "Greater"),
   ("is_greater", "Greater"), ("is_greater_than", "Greater"),
   ("GreaterThanEqual", "GreaterEqual"),
   ("to_be_greater_equal", "GreaterEqual"),
   ("to_be_greater_or_equal", "GreaterEqual"),
   ("is_greater_equal", "GreaterEqual"),
   ("is_greater_or_equal", "GreaterEqual"),
   ("LessThan", "Less"),
   ("to_be_less", "Less"), ("to_be_less_than", "Less"),
   ("is_less", "Less"), ("is_less_than", "Less"),
   ("LessThanEqual", "LessEqual"),
   ("to_be_less_equal", "LessEqual"), ("to_be_less_or_equal", "LessEqual"),
   ("is_less_equal", "LessEqual"), ("is_less_or_equal", "LessEqual"),
   ("to_be_between", "Between"), ("is_between", "Between"),
   ("to_not_be_between", "NotBetween"), ("is_not_between", "NotBetween"),
   ("to_be_positive", "Positive"), ("is_positive", "Positive"),
   ("to_be_negative", "Negative"), ("is_negative", "Negative"),
   ("to_be_even", "Even"), ("is_even", "Even"),
   ("to_be_odd", "Odd"), ("is_odd", "Odd"),
   ("to_be_monotone", "Monotone"), ("is_monotone", "Monotone"),
   ("to_be_increasing", "Increasing"), ("is_increasing", "Increasing"),
   ("to_be_strictly_increasing", "StrictlyIncreasing"),
   ("is_strictly_increasing", "StrictlyIncreasing"),
   ("to_be_decreasing", "Decreasing"), ("is_decreasing", "Decreasing"),
   ("to_be_strictly_decreasing", "StrictlyDecreasing"),
   ("is_strictly_decreasing", "StrictlyDecreasing")]

/-! Helper lemmas. -/

theorem string_append_empty (s : String) : s ++ "" = s := by
  cases s with
  | mk data =>
    show String.mk (data ++ []) = String.mk data
    rw [List.append_nil]

theorem string_append_assoc (s t u : String) : s ++ t ++ u = s ++ (t ++ u) := by
  cases s with
  | mk a =>
    cases t with
    | mk b =>
      cases u with
      | mk c =>
        show String.mk (a ++ b ++ c) = String.mk (a ++ (b ++ c))
        rw [List.append_assoc]

theorem string_mk_toList (s : String) : String.mk s.toList = s := by
  cases s
  rfl

theorem isPrefixOf_self (l : List Char) : l.isPrefixOf l = true := by
  induction l with
  | nil => rfl
  | cons c rest ih => simp [List.isPrefixOf, ih]

theorem strContainsSub_self (s : String) : strContainsSub s s = true := by
  unfold strContainsSub
  cases hs : s.toList with
  | nil => rfl
  | cons c cs =>
    simp [List.tails]

theorem takeLit_no_brace (l : List Char)
    (h : ∀ c ∈ l, ¬(c = openB ∨ c = closeB)) :
    takeLit l = (String.mk l, []) := by
  induction l with
  | nil => rfl
  | cons c rest ih =>
    have hc : ¬(c = openB ∨ c = closeB) := h c (List.mem_cons_self c rest)
    have hr : ∀ x ∈ rest, ¬(x = openB ∨ x = closeB) :=
      fun x hx => h x (List.mem_cons_of_mem c hx)
    simp only [takeLit, if_neg hc, ih hr]
    rfl

theorem pyFormat_no_brace (s : String) (pos : List String)
    (named : List (String × String))
    (h : ∀ c ∈ s.toList, ¬(c = openB ∨ c = closeB)) :
    pyFormat s pos named = Except.ok s := by
  unfold pyFormat
  cases hs : s.toList with
  | nil =>
    have hse : s = "" := by
      cases s with
      | mk d =>
        have : d = [] := hs
        rw [this]
    rw [hse]
    rfl
  | cons c cs =>
    have hl : takeLit (c :: cs) = (String.mk (c :: cs), []) :=
      takeLit_no_brace _ (by rw [← hs]; exact h)
    simp only [List.length_cons, fmtGo, hl]
    rw [← hs, string_mk_toList]

theorem pyFormat_in_tpl (a b : String) :
    pyFormat "{0} is not in {comparable}" [a] [("comparable", b)] =
      Except.ok (a ++ " is not in " ++ b) := by
  have h : pyFormat "{0} is not in {comparable}" [a] [("comparable", b)] =
      Except.ok (a ++ ((" is not in " ++ b) ++ "")) := rfl
  rw [h]
  simp only [string_append_empty, string_append_assoc]

theorem pyFormat_contains_tpl (a b : String) :
    pyFormat "{0} does not contain {comparable}" [a] [("comparable", b)] =
      Except.ok (a ++ " does not contain " ++ b) := by
  have h : pyFormat "{0} does not contain {comparable}" [a]
      [("comparable", b)] =
      Except.ok (a ++ ((" does not contain " ++ b) ++ "")) := rfl
  rw [h]
  simp only [string_append_empty, string_append_assoc]

theorem pyFormat_contains_only_tpl (a b : String) :
    pyFormat "{0} does not only contain values in {comparable}" [a]
      [("comparable", b)] =
      Except.ok (a ++ " does not only contain values in " ++ b) := by
  have h : pyFormat "{0} does not only contain values in {comparable}" [a]
      [("comparable", b)] =
      Except.ok (a ++ ((" does not only contain values in " ++ b) ++ "")) :=
    rfl
  rw [h]
  simp only [string_append_empty, string_append_assoc]

theorem pyFormat_not_tpl (a b : String) :
    pyFormat
      "The negation of {comparable} should not be true when evaluated with {0}"
      [a] [("comparable", b)] =
      Except.ok ("The negation of " ++ b ++
        " should not be true when evaluated with " ++ a) := by
  have h : pyFormat
      "The negation of {comparable} should not be true when evaluated with {0}"
      [a] [("comparable", b)] =
      Except.ok (("The negation of " ++ b) ++
        ((" should not be true when evaluated with " ++ a) ++ "")) := rfl
  rw [h]
  simp only [string_append_empty, string_append_assoc]

theorem pyFormat_predicate_tpl (a b : String) :
    pyFormat "The evaluation of {0} using {comparable} is false" [a]
      [("comparable", b)] =
      Except.ok ("The evaluation of " ++ a ++ " using " ++ b ++ " is false") :=
  by
  have h : pyFormat "The evaluation of {0} using {comparable} is false" [a]
      [("comparable", b)] =
      Except.ok (("The evaluation of " ++ a) ++
        ((" using " ++ b) ++ " is false")) := rfl
  rw [h]
  simp only [string_append_empty, string_append_assoc]

/-! Claim C1. -/

/-- Claim C1, counterexample: the claim says a two-positional-argument
`Comparator` constructor treats the first argument as the comparable and
the second as the subject; under that reading `Greater(5, 10)` would
evaluate `10 > 5` and pass, but the code (which treats the first argument
as the subject) evaluates `5 > 10` and raises. -/
theorem comparator_first_positional_counterexample :
    (Comparator.init Greater Option.none (PyVal.int 5)
        (some (PyVal.int 10))).isOk = false ∧
    (Comparator.initSpecClaim Greater Option.none (PyVal.int 5)
        (some (PyVal.int 10))).isOk = true := ⟨rfl, rfl⟩

/-- Claim C1 (amended): when the `Comparator` constructor receives two
positional arguments it treats the *first* as the subject value and the
*second* as the comparable, evaluating immediately with the operation
applied in `(subjectValue, comparable)` order; with one positional
argument it stores it as the comparable and defers.  Consequently
`Check(comparable)(value)` and `Check(value, comparable)` evaluate
identically. -/
theorem comparator_positional_disambiguation (c : Comparator)
    (m : Option String) (a b : PyVal) :
    Comparator.init c m b Option.none = Except.ok (c.toAssertion b) ∧
    ((Comparator.init c m a (some b)).isOk ↔
      ((c.toAssertion b).call m a).isOk) ∧
    ((Comparator.init c m a (some b)).isOk ↔
      ∃ r, c.op a b = Except.ok r ∧ truthy r = true) := by
  refine ⟨rfl, ?_, ?_⟩
  · unfold Comparator.init
    cases h : (c.toAssertion b).call m a <;>
      simp [Except.map, Except.isOk, Except.toBool, h]
  · unfold Comparator.init Assertion.call Comparator.toAssertion
    cases h : c.op a b with
    | error e => simp [h, Except.map, Except.isOk, Except.toBool]
    | ok r =>
      cases ht : truthy r with
      | false =>
        cases hf : format_msg m c.reason [pyStr a] [("comparable", pyStr b)] <;>
          simp [h, ht, hf, Except.map, Except.isOk, Except.toBool]
      | true =>
        simp [h, ht, Except.map, Except.isOk, Except.toBool]

/-! Shared facts about `Assertion.__call__`. -/

theorem assertion_call_isOk (a : Assertion) (m : Option String) (v : PyVal) :
    (a.call m v).isOk ↔
      ∃ r, a.compare v = Except.ok r ∧ truthy r = true := by
  unfold Assertion.call
  cases h : a.compare v with
  | error e => simp [h, Except.isOk, Except.toBool]
  | ok r =>
    cases ht : truthy r with
    | false =>
      cases hf : format_msg m a.reason [pyStr v] a.attrs <;>
        simp [h, ht, hf, Except.isOk, Except.toBool]
    | true => simp [h, ht, Except.isOk, Except.toBool]

theorem assertion_call_falsy (a : Assertion) (m : Option String) (v : PyVal)
    (r : PyVal) (h : a.compare v = Except.ok r) (ht : truthy r = false)
    (msgOk : String)
    (hf : format_msg m a.reason [pyStr v] a.attrs = Except.ok msgOk) :
    a.call m v = Except.error msgOk := by
  unfold Assertion.call
  rw [h]
  simp [ht, hf]

theorem assertion_call_truthy (a : Assertion) (m : Option String) (v : PyVal)
    (r : PyVal) (h : a.compare v = Except.ok r) (ht : truthy r = true) :
    a.call m v = Except.ok (PyVal.bool true) := by
  unfold Assertion.call
  rw [h]
  simp [ht]

/-! Claim C3. -/

/-- Claim C3: for every wrapped check that behaves like a library check
(it either raises on failure or returns `True` on success), `Not` succeeds
exactly when the wrapped check raises its assertion failure and fails
exactly when the wrapped check succeeds; the wrapped check's
`AssertionError` is caught inside `Not.compare` (the negated check returns
`True` and the inner message never escapes), and when `Not` itself fails
it raises its own rendered message. -/
theorem not_negation_law (w : PyVal → Except String PyVal) (nm : String)
    (m : Option String) (v : PyVal)
    (h : (∃ e, w v = Except.error e) ∨ w v = Except.ok (PyVal.bool true)) :
    (((NotCheck w nm).call m v).isOk ↔ ¬(w v).isOk) ∧
    (∀ e, w v = Except.error e →
      (NotCheck w nm).call m v = Except.ok (PyVal.bool true)) ∧
    (w v = Except.ok (PyVal.bool true) → m = Option.none →
      (NotCheck w nm).call m v = Except.error (notRendered nm v)) := by
  refine ⟨?_, ?_, ?_⟩
  · rw [assertion_call_isOk]
    rcases h with ⟨e, he⟩ | hok
    · simp [NotCheck, he, truthy, Except.isOk, Except.toBool]
    · simp [NotCheck, hok, truthy, Except.isOk, Except.toBool]
  · intro e he
    exact assertion_call_truthy _ _ _ (PyVal.bool true)
      (by simp [NotCheck, he]) rfl
  · intro hok hm
    subst hm
    refine assertion_call_falsy _ _ _ (PyVal.bool false)
      (by simp [NotCheck, hok, truthy]) rfl _ ?_
    unfold NotCheck format_msg notRendered
    exact pyFormat_not_tpl (pyStr v) nm

/-- Claim C3, witness: `Not` applied on a wrapped check that succeeds
returning `True`. -/
theorem not_negation_law_witness :
    (((NotCheck (fun _ => Except.ok (PyVal.bool true)) "Truthy()").call
        Option.none (PyVal.int 5)).isOk ↔
      ¬(Except.ok (PyVal.bool true) : Except String PyVal).isOk) ∧
    (∀ e, (Except.ok (PyVal.bool true) : Except String PyVal) =
        Except.error e →
      (NotCheck (fun _ => Except.ok (PyVal.bool true)) "Truthy()").call
          Option.none (PyVal.int 5) = Except.ok (PyVal.bool true)) ∧
    ((Except.ok (PyVal.bool true) : Except String PyVal) =
        Except.ok (PyVal.bool true) →
        (Option.none : Option String) = Option.none →
      (NotCheck (fun _ => Except.ok (PyVal.bool true)) "Truthy()").call
          Option.none (PyVal.int 5) =
        Except.error (notRendered "Truthy()" (PyVal.int 5))) :=
  not_negation_law (fun _ => Except.ok (PyVal.bool true)) "Truthy()"
    Option.none (PyVal.int 5) (Or.inr rfl)

/-! Claim C6. -/

/-- Claim C6: `Predicate(f)(v)` succeeds exactly when `f(v)` returns `None`
or a truthy result (so it fails when `f(v)` returns a falsy non-`None`
result), and an assertion failure raised by `f` does not propagate: it is
converted into a false comparison result and `Predicate` raises its own
rendered failure message instead. -/
theorem predicate_wrapper_behavior (f : PyVal → Except String PyVal)
    (nm : String) (v : PyVal) :
    (((PredicateCheck f nm).call Option.none v).isOk ↔
      (f v = Except.ok PyVal.none ∨
        ∃ r, f v = Except.ok r ∧ truthy r = true)) ∧
    (∀ e, f v = Except.error e →
      (PredicateCheck f nm).call Option.none v =
        Except.error (predicateRendered nm v)) := by
  have hfmt : format_msg Option.none
      "The evaluation of {0} using {comparable} is false"
      [pyStr v] [("comparable", nm)] =
      Except.ok (predicateRendered nm v) := by
    unfold format_msg predicateRendered
    exact pyFormat_predicate_tpl (pyStr v) nm
  constructor
  · rw [assertion_call_isOk]
    cases hfv : f v with
    | error e => simp [PredicateCheck, hfv, truthy]
    | ok r => cases r <;> simp [PredicateCheck, hfv, truthy]
  · intro e he
    exact assertion_call_falsy _ _ _ (PyVal.bool false)
      (by simp [PredicateCheck, he]) rfl _ hfmt

/-- Claim C6, witness: a wrapped callable that raises an assertion failure
makes the `Predicate` check fail with its own rendered message. -/
theorem predicate_wrapper_behavior_witness :
    (((PredicateCheck (fun _ => Except.error "inner assertion failure")
          "assert_truthy").call Option.none (PyVal.int 3)).isOk ↔
      ((Except.error "inner assertion failure" : Except String PyVal) =
          Except.ok PyVal.none ∨
        ∃ r, (Except.error "inner assertion failure" : Except String PyVal) =
            Except.ok r ∧ truthy r = true)) ∧
    (∀ e, (Except.error "inner assertion failure" : Except String PyVal) =
        Except.error e →
      (PredicateCheck (fun _ => Except.error "inner assertion failure")
          "assert_truthy").call Option.none (PyVal.int 3) =
        Except.error (predicateRendered "assert_truthy" (PyVal.int 3))) :=
  predicate_wrapper_behavior (fun _ => Except.error "inner assertion failure")
    "assert_truthy" (PyVal.int 3)

/-! Claim C7. -/

/-- Claim C7: for every subject value and comparable, the `In`, `Contains`
and `ContainsOnly` checks never raise anything except their own assertion
failure (each call either returns `True` or raises the check's own
rendered message), and when the underlying containment test or iteration
raises a `TypeError`/`ValueError` the operation returns `False`, so the
check fails with its own message rather than propagating the unrelated
exception. -/
theorem containment_robustness (v c : PyVal) :
    ((InCheck c).call Option.none v = Except.ok (PyVal.bool true) ∨
      (InCheck c).call Option.none v = Except.error (inRendered v c)) ∧
    ((ContainsCheck c).call Option.none v = Except.ok (PyVal.bool true) ∨
      (ContainsCheck c).call Option.none v =
        Except.error (containsRendered v c)) ∧
    ((ContainsOnlyCheck c).call Option.none v = Except.ok (PyVal.bool true) ∨
      (ContainsOnlyCheck c).call Option.none v =
        Except.error (containsOnlyRendered v c)) ∧
    (∀ e, pyContains c v = Except.error e →
      (InCheck c).call Option.none v = Except.error (inRendered v c)) ∧
    (∀ e, pyContains v c = Except.error e →
      (ContainsCheck c).call Option.none v =
        Except.error (containsRendered v c)) ∧
    (∀ e, pyIter v = Except.error e →
      (ContainsOnlyCheck c).call Option.none v =
        Except.error (containsOnlyRendered v c)) := by
  have hfmtIn : format_msg Option.none "{0} is not in {comparable}"
      [pyStr v] [("comparable", pyStr c)] = Except.ok (inRendered v c) := by
    unfold format_msg inRendered
    exact pyFormat_in_tpl (pyStr v) (pyStr c)
  have hfmtC : format_msg Option.none "{0} does not contain {comparable}"
      [pyStr v] [("comparable", pyStr c)] =
      Except.ok (containsRendered v c) := by
    unfold format_msg containsRendered
    exact pyFormat_contains_tpl (pyStr v) (pyStr c)
  have hfmtCO : format_msg Option.none
      "{0} does not only contain values in {comparable}"
      [pyStr v] [("comparable", pyStr c)] =
      Except.ok (containsOnlyRendered v c) := by
    unfold format_msg containsOnlyRendered
    exact pyFormat_contains_only_tpl (pyStr v) (pyStr c)
  refine ⟨?_, ?_, ?_, ?_, ?_, ?_⟩
  · cases hb : In_op v c with
    | true =>
      exact Or.inl (assertion_call_truthy _ _ _ (PyVal.bool true)
        (by simp [InCheck, hb]) rfl)
    | false =>
      exact Or.inr (assertion_call_falsy _ _ _ (PyVal.bool false)
        (by simp [InCheck, hb]) rfl _ hfmtIn)
  · cases hb : Contains_op v c with
    | true =>
      exact Or.inl (assertion_call_truthy _ _ _ (PyVal.bool true)
        (by simp [ContainsCheck, hb]) rfl)
    | false =>
      exact Or.inr (assertion_call_falsy _ _ _ (PyVal.bool false)
        (by simp [ContainsCheck, hb]) rfl _ hfmtC)
  · cases hb : ContainsOnly_op v c with
    | true =>
      exact Or.inl (assertion_call_truthy _ _ _ (PyVal.bool true)
        (by simp [ContainsOnlyCheck, hb]) rfl)
    | false =>
      exact Or.inr (assertion_call_falsy _ _ _ (PyVal.bool false)
        (by simp [ContainsOnlyCheck, hb]) rfl _ hfmtCO)
  · intro e he
    have hb : In_op v c = false := by simp [In_op, he]
    exact assertion_call_falsy _ _ _ (PyVal.bool false)
      (by simp [InCheck, hb]) rfl _ hfmtIn
  · intro e he
    have hb : Contains_op v c = false := by simp [Contains_op, he]
    exact assertion_call_falsy _ _ _ (PyVal.bool false)
      (by simp [ContainsCheck, hb]) rfl _ hfmtC
  · intro e he
    have hb : ContainsOnly_op v c = false := by
      simp only [ContainsOnly_op, he]
      rfl
    exact assertion_call_falsy _ _ _ (PyVal.bool false)
      (by simp [ContainsOnlyCheck, hb]) rfl _ hfmtCO

/-- Claim C7, witness: probing the non-iterable comparable `5` with the
subject `1` makes all three underlying operations raise `TypeError`, and
each check raises its own rendered message. -/
theorem containment_robustness_witness :
    ((InCheck (PyVal.int 5)).call Option.none (PyVal.int 1) =
        Except.ok (PyVal.bool true) ∨
      (InCheck (PyVal.int 5)).call Option.none (PyVal.int 1) =
        Except.error (inRendered (PyVal.int 1) (PyVal.int 5))) ∧
    ((ContainsCheck (PyVal.int 5)).call Option.none (PyVal.int 1) =
        Except.ok (PyVal.bool true) ∨
      (ContainsCheck (PyVal.int 5)).call Option.none (PyVal.int 1) =
        Except.error (containsRendered (PyVal.int 1) (PyVal.int 5))) ∧
    ((ContainsOnlyCheck (PyVal.int 5)).call Option.none (PyVal.int 1) =
        Except.ok (PyVal.bool true) ∨
      (ContainsOnlyCheck (PyVal.int 5)).call Option.none (PyVal.int 1) =
        Except.error (containsOnlyRendered (PyVal.int 1) (PyVal.int 5))) ∧
    (∀ e, pyContains (PyVal.int 5) (PyVal.int 1) = Except.error e →
      (InCheck (PyVal.int 5)).call Option.none (PyVal.int 1) =
        Except.error (inRendered (PyVal.int 1) (PyVal.int 5))) ∧
    (∀ e, pyContains (PyVal.int 1) (PyVal.int 5) = Except.error e →
      (ContainsCheck (PyVal.int 5)).call Option.none (PyVal.int 1) =
        Except.error (containsRendered (PyVal.int 1) (PyVal.int 5))) ∧
    (∀ e, pyIter (PyVal.int 1) = Except.error e →
      (ContainsOnlyCheck (PyVal.int 5)).call Option.none (PyVal.int 1) =
        Except.error (containsOnlyRendered (PyVal.int 1) (PyVal.int 5))) :=
  containment_robustness (PyVal.int 1) (PyVal.int 5)

/-! Claim C8. -/

/-- Claim C8: `Between(value, min=m, max=M)` passes iff `m <= value <= M`,
where an absent bound means no constraint on that side, boundary equality
passes, and `Between` with neither bound set passes for every value. -/
theorem between_inclusive (v : Int) (mn mx : Option Int) :
    (((BetweenCheck mn mx).call Option.none (PyVal.int v)).isOk ↔
      ((∀ m, mn = some m → m ≤ v) ∧ (∀ m, mx = some m → v ≤ m))) ∧
    (∀ w : PyVal,
      ((BetweenCheck Option.none Option.none).call Option.none w).isOk =
        true) ∧
    ((BetweenCheck (some v) (some v)).call Option.none
        (PyVal.int v)).isOk = true := by
  refine ⟨?_, ?_, ?_⟩
  · rw [assertion_call_isOk]
    cases mn with
    | none =>
      cases mx with
      | none =>
        have hcomp : (BetweenCheck Option.none Option.none).compare
            (PyVal.int v) = Except.ok (PyVal.bool true) := rfl
        simp [hcomp, truthy]
      | some M =>
        have hcomp : (BetweenCheck Option.none (some M)).compare
            (PyVal.int v) =
            Except.ok (PyVal.bool (true && decide (v ≤ M))) := rfl
        simp [hcomp, truthy]
    | some m =>
      cases mx with
      | none =>
        have hcomp : (BetweenCheck (some m) Option.none).compare
            (PyVal.int v) =
            Except.ok (PyVal.bool (decide (m ≤ v) && true)) := rfl
        simp [hcomp, truthy]
      | some M =>
        have hcomp : (BetweenCheck (some m) (some M)).compare
            (PyVal.int v) =
            Except.ok (PyVal.bool (decide (m ≤ v) && decide (v ≤ M))) := rfl
        simp [hcomp, truthy]
  · intro w
    rw [assertion_call_isOk]
    exact ⟨PyVal.bool true, rfl, rfl⟩
  · rw [assertion_call_isOk]
    refine ⟨PyVal.bool true, ?_, rfl⟩
    have hcomp : (BetweenCheck (some v) (some v)).compare (PyVal.int v) =
        Except.ok (PyVal.bool (decide (v ≤ v) && decide (v ≤ v))) := rfl
    rw [hcomp]
    simp

/-- Claim C8, witness: `Between(5, min=4, max=6)` passes. -/
theorem between_inclusive_witness :
    (((BetweenCheck (some 4) (some 6)).call Option.none
        (PyVal.int 5)).isOk ↔
      ((∀ m, (some 4 : Option Int) = some m → m ≤ 5) ∧
        (∀ m, (some 6 : Option Int) = some m → (5 : Int) ≤ m))) ∧
    (∀ w : PyVal,
      ((BetweenCheck Option.none Option.none).call Option.none w).isOk =
        true) ∧
    ((BetweenCheck (some 5) (some 5)).call Option.none
        (PyVal.int 5)).isOk = true :=
  between_inclusive 5 (some 4) (some 6)

/-! Claim C2. -/

/-- Claim C2 (code bug): `expect.__call__` wraps an ad hoc callable in
`verify.Predicate`, which in the staged snapshot is the flat
`__init__.py` Predicate with no `None`-to-`True` mapping and no
`AssertionError` catch, so a wrapped callable returning `None` fails with
the Predicate message instead of passing as the claim (and the repo's own
test `test_expect_predicates_return_none`) requires; the `logic.py`
Predicate — the intended wrapper — would pass it (second conjunct).  The
flat `expect` function the claim also cites never wraps and
short-circuits on the first falsy result via lazy `all()`: its outcome is
independent of every later check (third conjunct). -/
theorem expect_batch_code_bug :
    expectCall (PyVal.bool true)
        [RawCheck.callable "assert_truthy" (fun _ => Except.ok PyVal.none)] =
      Except.error "The evaluation of True using assert_truthy is false" ∧
    (PredicateCheck (fun _ => Except.ok PyVal.none) "assert_truthy").call
        Option.none (PyVal.bool true) = Except.ok (PyVal.bool true) ∧
    (∀ g, expectFlat (PyVal.int 0)
        [fun _ => Except.ok (PyVal.bool false), g] =
      Except.error "Not all expectations evaluated to true") :=
  ⟨rfl, rfl, fun _ => rfl⟩

/-- Claim C2, witness: the flat runner short-circuit at a concrete second
check (which is never applied). -/
theorem expect_batch_code_bug_witness :
    expectFlat (PyVal.int 0)
        [fun _ => Except.ok (PyVal.bool false),
         fun _ => Except.error "never reached"] =
      Except.error "Not all expectations evaluated to true" :=
  expect_batch_code_bug.2.2 (fun _ => Except.error "never reached")

/-! Claim C4. -/

/-- Helper: a resolution failure of `_find_assertion_class` always carries
the standard message. -/
theorem find_assertion_class_error (env : List (String × ModEntry))
    (name : String) (e : String)
    (h : find_assertion_class env name = Except.error e) :
    e = mkNotValidMsg name := by
  unfold find_assertion_class at h
  repeat' split at h
  all_goals simp_all

/-- Claim C4 (code bug): attribute resolution tries, in order, exact
match, the class-format conversion, the `to_be_`/`is_`-stripped
conversions, and the `does`/`does_not` table, and any resolution failure
raises the message that the name is not a valid assertion method (first
three conjuncts, generic in the namespace).  But in the staged snapshot
`import verify` loads the flat `__init__.py`, none of whose attributes
satisfies `base.is_assertion` (its classes derive from the flat module's
own `Assertion`, not `base.Assertion`), so although resolution finds the
flat `Truthy` class for `is_truthy` and the flat `Predicate`/`Not` for
`does`/`does_not`, every chained access raises
`"..." is not a valid assertion method`, contradicting the repo's own
chaining tests. -/
theorem expect_getattr_chimera_code_bug :
    (∀ env name cn, envGet env name = some (ModEntry.assertionClass cn) →
      expectGetattr env name = Except.ok cn) ∧
    (∀ env name cn, envGet env name = Option.none →
      envGet env (class_format name) = some (ModEntry.assertionClass cn) →
      expectGetattr env name = Except.ok cn) ∧
    (∀ env name e, expectGetattr env name = Except.error e →
      e = mkNotValidMsg name) ∧
    (find_assertion_class verifyModule "is_truthy" =
      Except.ok (ModEntry.other "Truthy")) ∧
    (expectGetattr verifyModule "is_truthy" =
      Except.error (mkNotValidMsg "is_truthy")) ∧
    (find_assertion_class verifyModule "does" =
      Except.ok (ModEntry.other "Predicate")) ∧
    (expectGetattr verifyModule "does" =
      Except.error (mkNotValidMsg "does")) ∧
    (find_assertion_class verifyModule "does_not" =
      Except.ok (ModEntry.other "Not")) ∧
    (expectGetattr verifyModule "does_not" =
      Except.error (mkNotValidMsg "does_not")) ∧
    (expectGetattr verifyModule "nosuchmethod" =
      Except.error (mkNotValidMsg "nosuchmethod")) := by
  refine ⟨?_, ?_, ?_, by rfl, by rfl, by rfl, by rfl, by rfl, by rfl,
    by rfl⟩
  · intro env name cn h
    simp [expectGetattr, find_assertion_class, h]
  · intro env name cn h1 h2
    simp [expectGetattr, find_assertion_class, h1, h2]
  · intro env name e h
    unfold expectGetattr at h
    cases hf : find_assertion_class env name with
    | error e2 =>
      rw [hf] at h
      injection h with h2
      subst h2
      exact find_assertion_class_error env name e2 hf
    | ok entry =>
      rw [hf] at h
      cases entry with
      | assertionClass cn => exact Except.noConfusion h
      | other an =>
        injection h with h2
        exact h2.symm

/-- Claim C4, witness: exact-match resolution succeeds on a namespace
entry that does satisfy `is_assertion` (as in the intended, non-stale
program the tests describe). -/
theorem expect_getattr_chimera_code_bug_witness :
    expectGetattr [("Equal", ModEntry.assertionClass "Equal")] "Equal" =
      Except.ok "Equal" :=
  expect_getattr_chimera_code_bug.1
    [("Equal", ModEntry.assertionClass "Equal")] "Equal" "Equal" rfl

/-! Claim C5. -/

/-- Claim C5 (code bug): the alias `is_not_match`, documented as an alias
of `NotMatch`, is bound to `Match` (src/verify/equality.py line 126), and
the documented alias `is_greater_equal` of `GreaterEqual` is not bound at
all — the binding is misspelled `is_greqter_equal`
(src/verify/numbers.py line 78). -/
theorem alias_identity_code_bug :
    lookupAlias aliasBindingsEquality "is_not_match" = some "Match" ∧
    lookupAlias docAliasesEquality "is_not_match" = some "NotMatch" ∧
    "Match" ≠ "NotMatch" ∧
    lookupAlias aliasBindingsNumbers "is_greater_equal" = Option.none ∧
    lookupAlias docAliasesNumbers "is_greater_equal" = some "GreaterEqual" ∧
    lookupAlias aliasBindingsNumbers "is_greqter_equal" =
      some "GreaterEqual" :=
  ⟨rfl, rfl, by decide, rfl, rfl, rfl⟩

/-! Claim C9. -/

/-- Claim C9, counterexample: the custom message is itself passed through
format-string interpolation, so for the non-empty custom message `\x7b0\x7d`
and failing value `0`, the raised message is `0`, which does not contain
the string `\x7b0\x7d`; the claim's universal quantification over all
non-empty strings fails. -/
theorem custom_msg_claim_counterexample :
    TruthyCheck.call (some "{0}") (PyVal.int 0) = Except.error "0" ∧
    strContainsSub "0" "{0}" = false := ⟨rfl, rfl⟩

/-- Claim C9 (amended): for every check and every non-empty,
placeholder-free (brace-free) custom message `X`, evaluating the check
against a failing value raises an error whose text is exactly `X` (hence
contains `X`), the caller-supplied `msg` overriding the check's default
reason template. -/
theorem custom_msg_override (a : Assertion) (X : String) (v r : PyVal)
    (hne : X ≠ "")
    (hbr : ∀ ch ∈ X.toList, ¬(ch = openB ∨ ch = closeB))
    (hfail : a.compare v = Except.ok r) (hfalsy : truthy r = false) :
    a.call (some X) v = Except.error X ∧ strContainsSub X X = true := by
  constructor
  · refine assertion_call_falsy _ _ _ r hfail hfalsy X ?_
    show pyFormat (if X = "" then a.reason else X) [pyStr v] a.attrs =
      Except.ok X
    rw [if_neg hne]
    exact pyFormat_no_brace X [pyStr v] a.attrs hbr
  · exact strContainsSub_self X

/-- Claim C9, witness: a concrete brace-free custom message on a failing
`Truthy` check. -/
theorem custom_msg_override_witness :
    TruthyCheck.call (some "custom failure message") (PyVal.int 0) =
        Except.error "custom failure message" ∧
      strContainsSub "custom failure message" "custom failure message" =
        true :=
  custom_msg_override TruthyCheck "custom failure message" (PyVal.int 0)
    (PyVal.bool false) (by decide) (by decide) rfl rfl

/-! Claim C10. -/

/-- Claim C10: `format_msg` selects the caller-supplied `msg` only when it
is truthy — `None` or an empty string fall back to the default reason
template — and the selected string is then itself format-interpolated
(demonstrated by a custom message whose placeholders are filled with the
subject value and the instance's `comparable` attribute rather than
reproduced literally). -/
theorem format_msg_selection (reason : String) (args : List String)
    (named : List (String × String)) :
    format_msg Option.none reason args named = pyFormat reason args named ∧
    format_msg (some "") reason args named = pyFormat reason args named ∧
    (∀ s, s ≠ "" → format_msg (some s) reason args named =
      pyFormat s args named) ∧
    ((Greater.toAssertion (PyVal.int 7)).call
        (some "expected more than {comparable}, got {0}") (PyVal.int 5) =
      Except.error "expected more than 7, got 5") := by
  refine ⟨rfl, rfl, ?_, ?_⟩
  · intro s hs
    show pyFormat (if s = "" then reason else s) args named =
      pyFormat s args named
    rw [if_neg hs]
  · rfl

/-- Claim C10, witness: a non-empty custom message is selected and
formatted. -/
theorem format_msg_selection_witness :
    format_msg (some "x") "r" [] [] = pyFormat "x" [] [] :=
  (format_msg_selection "r" [] []).2.2.1 "x" (by decide)
